import Mathlib

/-!
# Verification of the maintenance dashboard analytics engine

Shallow embedding of the analytics core of `business_logic.py` (class
`MaintenanceService`) together with the record-store query shapes of
`data_access.py` that feed it.

Numeric model: Python floats are modelled as exact rationals; the Python
built-in `round` (round-half-to-even) is `rne` scaled by a power of ten;
Python `int(x)` is `pyTrunc` (truncation toward zero); Python `//` on
nonnegative floats is the rational floor of the quotient.  `datetime`
values are modelled by a calendar `Date` (for values parsed with
`strptime`, always at midnight) and by a rational timestamp measured in
days for the `datetime.now()` reference instant, so that
`(d2 - d1).days` is the floor of the timestamp difference.
-/

/-- Round half to even to the nearest integer: the rounding mode of the Python
built-in `round`. -/
def rne (x : ℚ) : ℤ :=
  if x - ⌊x⌋ < 1/2 then ⌊x⌋
  else if 1/2 < x - ⌊x⌋ then ⌊x⌋ + 1
  else if ⌊x⌋ % 2 = 0 then ⌊x⌋ else ⌊x⌋ + 1

/-- Python `round(x, 1)`. -/
def pyRound1 (x : ℚ) : ℚ := (rne (x * 10) : ℚ) / 10

/-- Python `round(x, 2)`. -/
def pyRound2 (x : ℚ) : ℚ := (rne (x * 100) : ℚ) / 100

/-- Python `round(x, 4)`. -/
def pyRound4 (x : ℚ) : ℚ := (rne (x * 10000) : ℚ) / 10000

/-- Python `int(x)`: truncation toward zero. -/
def pyTrunc (x : ℚ) : ℤ := if 0 ≤ x then ⌊x⌋ else ⌈x⌉

theorem rne_le (x : ℚ) : (rne x : ℚ) ≤ x + 1/2 := by
  have h1 : (⌊x⌋ : ℚ) ≤ x := Int.floor_le x
  have h2 : x < ⌊x⌋ + 1 := Int.lt_floor_add_one x
  unfold rne
  split_ifs with ha hb hc <;> push_cast <;> linarith

theorem le_rne (x : ℚ) : x - 1/2 ≤ (rne x : ℚ) := by
  have h1 : (⌊x⌋ : ℚ) ≤ x := Int.floor_le x
  have h2 : x < ⌊x⌋ + 1 := Int.lt_floor_add_one x
  unfold rne
  split_ifs with ha hb hc <;> push_cast <;> linarith

theorem rne_eq_floor_or_succ (x : ℚ) : rne x = ⌊x⌋ ∨ rne x = ⌊x⌋ + 1 := by
  unfold rne
  split_ifs <;> simp

theorem rne_nonneg (x : ℚ) (hx : 0 ≤ x) : 0 ≤ rne x := by
  rcases rne_eq_floor_or_succ x with h | h <;> rw [h]
  · exact Int.floor_nonneg.mpr hx
  · have := Int.floor_nonneg.mpr hx
    omega

theorem rne_le_of_le (x : ℚ) (n : ℤ) (hx : x ≤ n) : rne x ≤ n := by
  have h := rne_le x
  have hlt : (rne x : ℚ) < n + 1 := by linarith
  exact_mod_cast Int.lt_add_one_iff.mp (by exact_mod_cast hlt)

theorem pyRound2_nonneg (x : ℚ) (hx : 0 ≤ x) : 0 ≤ pyRound2 x := by
  unfold pyRound2
  have := rne_nonneg (x * 100) (by positivity)
  positivity

theorem pyRound2_le_hundred (x : ℚ) (hx : x ≤ 100) : pyRound2 x ≤ 100 := by
  unfold pyRound2
  have h : rne (x * 100) ≤ (10000 : ℤ) := rne_le_of_le _ _ (by push_cast; linarith)
  have h2 : (rne (x * 100) : ℚ) ≤ 10000 := by exact_mod_cast h
  linarith

theorem pyRound1_nonneg (x : ℚ) (hx : 0 ≤ x) : 0 ≤ pyRound1 x := by
  unfold pyRound1
  have := rne_nonneg (x * 10) (by positivity)
  positivity

theorem pyRound1_le_hundred (x : ℚ) (hx : x ≤ 100) : pyRound1 x ≤ 100 := by
  unfold pyRound1
  have h : rne (x * 10) ≤ (1000 : ℤ) := rne_le_of_le _ _ (by push_cast; linarith)
  have h2 : (rne (x * 10) : ℚ) ≤ 1000 := by exact_mod_cast h
  linarith

/-- A calendar date as parsed by `datetime.strptime(s, "%Y-%m-%d")`. -/
structure Date where
  year : ℤ
  month : ℤ
  day : ℤ
deriving DecidableEq

/-- Gregorian leap-year test, as in Python's `calendar`/`datetime`. -/
def isLeapYear (y : ℤ) : Bool := (y % 4 == 0 && y % 100 != 0) || y % 400 == 0

/-- Days before the first of month `m` in year `y` (cumulative month lengths,
with the leap-day correction after February). -/
def daysBeforeMonth (y m : ℤ) : ℤ :=
  let base : ℤ :=
    if m ≤ 1 then 0 else if m = 2 then 31 else if m = 3 then 59 else if m = 4 then 90
    else if m = 5 then 120 else if m = 6 then 151 else if m = 7 then 181
    else if m = 8 then 212 else if m = 9 then 243 else if m = 10 then 273
    else if m = 11 then 304 else 334
  if 2 < m ∧ isLeapYear y then base + 1 else base

/-- Python `date.toordinal()`: the proleptic Gregorian day number, with
0001-01-01 as day 1.  Subtraction of two midnight datetimes in days is the
difference of their ordinals. -/
def toOrdinal (d : Date) : ℤ :=
  365 * (d.year - 1) + (d.year - 1) / 4 - (d.year - 1) / 100 + (d.year - 1) / 400
    + daysBeforeMonth d.year d.month + d.day

-- 2024-03-01 is day 738946 (Python: date(2024, 3, 1).toordinal()).
example : toOrdinal ⟨2024, 3, 1⟩ - toOrdinal ⟨2024, 2, 28⟩ = 2 := by decide
example : toOrdinal ⟨2023, 3, 1⟩ - toOrdinal ⟨2023, 2, 28⟩ = 1 := by decide
example : toOrdinal ⟨2025, 1, 1⟩ - toOrdinal ⟨2024, 1, 1⟩ = 366 := by decide

/-- The comparison modelling Python's stable `list.sort(key=k)`: order the
index-decorated elements by key, breaking key ties by original position. -/
def keyIdxRel (key : α → ℤ) (p q : ℕ × α) : Prop :=
  key p.2 < key q.2 ∨ (key p.2 = key q.2 ∧ p.1 ≤ q.1)

instance (key : α → ℤ) : DecidableRel (keyIdxRel key) :=
  fun p q =>
    inferInstanceAs (Decidable (key p.2 < key q.2 ∨ (key p.2 = key q.2 ∧ p.1 ≤ q.1)))

instance (key : α → ℤ) : IsTotal (ℕ × α) (keyIdxRel key) :=
  ⟨fun p q => by
    unfold keyIdxRel
    rcases lt_trichotomy (key p.2) (key q.2) with h | h | h
    · exact Or.inl (Or.inl h)
    · rcases Nat.le_total p.1 q.1 with h2 | h2
      · exact Or.inl (Or.inr ⟨h, h2⟩)
      · exact Or.inr (Or.inr ⟨h.symm, h2⟩)
    · exact Or.inr (Or.inl h)⟩

instance (key : α → ℤ) : IsTrans (ℕ × α) (keyIdxRel key) :=
  ⟨fun p q r hpq hqr => by
    unfold keyIdxRel at *
    rcases hpq with h1 | ⟨h1, h1i⟩ <;> rcases hqr with h2 | ⟨h2, h2i⟩
    · exact Or.inl (h1.trans h2)
    · exact Or.inl (h2 ▸ h1)
    · exact Or.inl (h1 ▸ h2)
    · exact Or.inr ⟨h1.trans h2, h1i.trans h2i⟩⟩

/-- Python's `list.sort(key=k)` is a stable sort.  It is modelled by sorting
the index-decorated list by `keyIdxRel` (key first, original position as the
tie-break) and dropping the indices; `reverse=True` on an integer key is the
same with the key negated. -/
def stableSortBy (key : α → ℤ) (l : List α) : List α :=
  ((l.enum).insertionSort (keyIdxRel key)).map Prod.snd

theorem stableSortBy_perm (key : α → ℤ) (l : List α) :
    List.Perm (stableSortBy key l) l := by
  have h := (List.perm_insertionSort (keyIdxRel key) l.enum).map Prod.snd
  rwa [List.enum_map_snd] at h

theorem pairwise_fst_lt_enum (l : List α) :
    List.Pairwise (fun p q : ℕ × α => p.1 < q.1) l.enum := by
  have h : (l.enum.map Prod.fst).Pairwise (fun a b : ℕ => a < b) := by
    rw [List.enum_map_fst]; exact List.pairwise_lt_range _
  exact List.pairwise_map.mp h

theorem stableSortBy_sorted (key : α → ℤ) (l : List α) :
    List.Pairwise (fun a b => key a ≤ key b) (stableSortBy key l) := by
  have hs : List.Pairwise (keyIdxRel key) (l.enum.insertionSort (keyIdxRel key)) :=
    List.sorted_insertionSort (keyIdxRel key) l.enum
  unfold stableSortBy
  refine List.pairwise_map.mpr (hs.imp ?_)
  rintro p q (h | ⟨h, _⟩)
  · exact le_of_lt h
  · exact le_of_eq h

theorem nodup_fst_insertionSort (key : α → ℤ) (l : List α) :
    List.Pairwise (fun p q : ℕ × α => p.1 ≠ q.1) (l.enum.insertionSort (keyIdxRel key)) := by
  have hperm := (List.perm_insertionSort (keyIdxRel key) l.enum).map Prod.fst
  have hnd : ((l.enum.insertionSort (keyIdxRel key)).map Prod.fst).Nodup := by
    refine (hperm.nodup_iff).mpr ?_
    rw [List.enum_map_fst]
    exact List.nodup_range _
  exact List.pairwise_map.mp hnd

/-- Stability of `stableSortBy`: the restriction of the output to any set of
elements lying in a single key class is exactly the corresponding restriction
of the input — equal-key elements keep their relative order. -/
theorem stableSortBy_filter (key : α → ℤ) (l : List α) (p : α → Bool)
    (hp : ∀ a b, p a = true → p b = true → key a = key b) :
    (stableSortBy key l).filter p = l.filter p := by
  classical
  have hfm : ∀ (m : List (ℕ × α)),
      (m.map Prod.snd).filter p = (m.filter (fun q => p q.2)).map Prod.snd := by
    intro m
    rw [List.filter_map]
    rfl
  have hl : l.filter p = (l.enum.filter (fun q => p q.2)).map Prod.snd := by
    have := hfm l.enum
    rwa [List.enum_map_snd] at this
  unfold stableSortBy
  rw [hfm, hl]
  congr 1
  -- the two filtered decorated lists are permutations of each other and both
  -- sorted by the strictly increasing original position
  have hperm : List.Perm ((l.enum.insertionSort (keyIdxRel key)).filter (fun q => p q.2))
      (l.enum.filter (fun q => p q.2)) :=
    (List.perm_insertionSort (keyIdxRel key) l.enum).filter _
  have hs : List.Pairwise (keyIdxRel key) (l.enum.insertionSort (keyIdxRel key)) :=
    List.sorted_insertionSort (keyIdxRel key) l.enum
  have hne := nodup_fst_insertionSort key l
  have hsorted1 : List.Pairwise (fun q r : ℕ × α => q.1 < r.1)
      ((l.enum.insertionSort (keyIdxRel key)).filter (fun q => p q.2)) := by
    have hbase := (hs.and hne).filter (fun q => p q.2)
    refine hbase.imp_of_mem ?_
    intro q r hq hr hqr
    have hpq : p q.2 = true := (List.mem_filter.mp hq).2
    have hpr : p r.2 = true := (List.mem_filter.mp hr).2
    have hkey : key q.2 = key r.2 := hp _ _ hpq hpr
    rcases hqr.1 with h | ⟨_, hle⟩
    · exact absurd hkey (ne_of_lt h)
    · exact lt_of_le_of_ne hle hqr.2
  have hsorted2 : List.Pairwise (fun q r : ℕ × α => q.1 < r.1)
      (l.enum.filter (fun q => p q.2)) :=
    (pairwise_fst_lt_enum l).filter _
  haveI : IsAntisymm (ℕ × α) (fun q r : ℕ × α => q.1 < r.1) :=
    ⟨fun a b h h2 => absurd h2 (Nat.lt_asymm h)⟩
  exact List.eq_of_perm_of_sorted hperm hsorted1 hsorted2

/-- The distinct keys of a list in first-occurrence order: the iteration
order of a Python dict or defaultdict filled while scanning the list. -/
def uniqueKeys (key : α → κ) [DecidableEq κ] : List α → List κ
  | [] => []
  | a :: l => key a :: (uniqueKeys key l).filter (fun k => k ≠ key a)

theorem mem_uniqueKeys (key : α → κ) [DecidableEq κ] (l : List α) (k : κ) :
    k ∈ uniqueKeys key l ↔ ∃ a ∈ l, key a = k := by
  induction l with
  | nil => simp [uniqueKeys]
  | cons a l ih =>
    by_cases hk : k = key a
    · subst hk
      simp [uniqueKeys]
    · simp only [uniqueKeys, List.mem_cons, List.mem_filter, decide_eq_true_eq, ih]
      constructor
      · rintro (h | ⟨⟨b, hb, hbk⟩, _⟩)
        · exact absurd h hk
        · exact ⟨b, Or.inr hb, hbk⟩
      · rintro ⟨b, hb, hbk⟩
        rcases hb with rfl | hb
        · exact absurd hbk.symm hk
        · exact Or.inr ⟨⟨b, hb, hbk⟩, hk⟩

theorem nodup_uniqueKeys (key : α → κ) [DecidableEq κ] (l : List α) :
    (uniqueKeys key l).Nodup := by
  induction l with
  | nil => simp [uniqueKeys]
  | cons a l ih =>
    refine List.Nodup.cons ?_ (ih.filter _)
    intro hmem
    have := (List.mem_filter.mp hmem).2
    simp at this

theorem length_filter_split (p q : α → Bool) (l : List α) :
    (l.filter p).length
      = (l.filter (fun a => q a && p a)).length + (l.filter (fun a => !q a && p a)).length := by
  induction l with
  | nil => rfl
  | cons a l ih =>
    by_cases hq : q a <;> by_cases hp : p a <;>
      simp [List.filter_cons, hq, hp, ih] <;> omega

/-- Summing per-key filtered counts over a duplicate-free list of keys covering
every selected element recovers the total count of selected elements. -/
theorem sum_length_filter_cover (key : α → κ) [DecidableEq κ] (p : α → Bool) :
    ∀ (ks : List κ) (l : List α), ks.Nodup → (∀ a ∈ l, p a = true → key a ∈ ks) →
      ((ks.map (fun k => (l.filter (fun a => decide (key a = k) && p a)).length)).sum
        = (l.filter p).length) := by
  intro ks
  induction ks with
  | nil =>
    intro l _ hcov
    have : l.filter p = [] := by
      rw [List.filter_eq_nil_iff]
      intro a ha hpa
      exact absurd (hcov a ha hpa) (List.not_mem_nil _)
    simp [this]
  | cons k ks ih =>
    intro l hnd hcov
    have hsplit := length_filter_split p (fun a => decide (key a = k)) l
    have htail : ∀ k2 ∈ ks,
        (l.filter (fun a => decide (key a = k2) && p a)).length
          = ((l.filter (fun a => !decide (key a = k) && p a)).filter
              (fun a => decide (key a = k2) && p a)).length := by
      intro k2 hk2
      have hkk : k2 ≠ k := by
        rintro rfl
        exact (List.nodup_cons.mp hnd).1 hk2
      congr 1
      rw [List.filter_filter]
      refine (List.filter_congr ?_)
      intro a _
      by_cases h1 : key a = k2
      · by_cases h2 : p a
        · have h3 : ¬ key a = k := by rw [h1]; exact hkk
          simp [h1, h2, h3, hkk]
        · simp [h1, h2]
      · simp [h1]
    have hcov2 : ∀ a ∈ l.filter (fun a => !decide (key a = k) && p a), p a = true →
        key a ∈ ks := by
      intro a ha hpa
      have hmem := List.mem_filter.mp ha
      have hne : ¬ key a = k := by
        have := hmem.2
        simp at this
        exact this.1
      rcases List.mem_cons.mp (hcov a hmem.1 hpa) with h | h
      · exact absurd h hne
      · exact h
    have hrec := ih (l.filter (fun a => !decide (key a = k) && p a))
      (List.nodup_cons.mp hnd).2 hcov2
    have hptail : (l.filter (fun a => !decide (key a = k) && p a)).filter p
        = l.filter (fun a => !decide (key a = k) && p a) := by
      rw [List.filter_filter]
      refine List.filter_congr ?_
      intro a _
      by_cases h2 : p a <;> simp [h2]
    simp only [List.map_cons, List.sum_cons]
    rw [List.map_congr_left htail, hrec, hptail, hsplit]

/-- An equipment record as returned by `EquipementDAO.get_all()` (fields the
analytics engine reads; `marque`, `modele`, `numero_serie`, `localisation`
are never consumed by the engine and are omitted). -/
structure Equipement where
  id : ℤ
  nom : String
  type : String
  statut : String
  date_acquisition : Date
  heures_utilisation : ℤ
deriving DecidableEq

/-- A completed intervention row as returned by
`IndicateursDAO.get_all_interventions_raw()` (SQL filter `statut = 'terminee'`,
joined with the equipment name and type).  The engine parses
`date_intervention` unguardedly for these rows, so the date is a parsed
calendar date here.  `description` and the technician join are unused. -/
structure Intervention where
  equipement_id : ℤ
  equipement_nom : String
  date_intervention : Date
  type_intervention : String
  cout : ℚ
  duree_minutes : ℤ
deriving DecidableEq

/-- An intervention row of any status as returned by
`StatistiquesDAO.get_interventions_avec_details()`.  The alert generator is
the only engine consumer; it reads the kind, the status and the date, and
parses the date inside a `try`, so the date field here is the result of that
parse: `none` models a string `datetime.strptime` rejects with `ValueError`. -/
structure InterventionDetail where
  equipement_nom : String
  date_intervention : Option Date
  type_intervention : String
  statut : String
deriving DecidableEq

/-- A per-technician rollup row of `IndicateursDAO.get_performance_techniciens()`
(pre-aggregated store query; fields the KPI block reads). -/
structure PerfTechnicien where
  technicien : String
  nombre_interventions : ℕ
  temps_moyen : ℚ
  valeur_interventions : ℚ
deriving DecidableEq

/-- A row of `IndicateursDAO.get_equipements_plus_sollicites` (pre-aggregated
top-N store query, ordered by intervention count descending). -/
structure SolliciteRow where
  nom : String
  nombre_interventions : ℕ
deriving DecidableEq

/-- The record-store snapshot: the results of the read-only queries the
analytics engine issues.  All views are over the same underlying tables; the
engine never mutates them. -/
structure Store where
  equipements : List Equipement
  interventions : List Intervention
  toutes_interventions : List InterventionDetail
  perf_techniciens : List PerfTechnicien
  plus_sollicites : List SolliciteRow
deriving DecidableEq

/-- `MaintenanceService.calculer_taux_disponibilite_equipements`: group the
equipment by type and give each type `round(actifs / total * 100, 2)`.  The
guard `stats['total'] > 0` of the source holds for every group by
construction, so the mapping has exactly the occurring types as keys, in
first-occurrence order (Python dict iteration order). -/
def calculer_taux_disponibilite_equipements (equipements : List Equipement) :
    List (String × ℚ) :=
  (uniqueKeys (fun e => e.type) equipements).map (fun ty =>
    let grp := equipements.filter (fun e => e.type = ty)
    let total := grp.length
    let actifs := (grp.filter (fun e => e.statut = "actif")).length
    (ty, pyRound2 ((actifs : ℚ) / (total : ℚ) * 100)))

/-- The per-equipment-group body of `MaintenanceService.calculer_mtbf`:
count the corrective interventions; with fewer than two the result is `None`;
otherwise the period is `(max(dates) - min(dates)).days` over ALL the group's
interventions and the result is `round(periode / nb_pannes, 1)`, or `None`
when the period is zero. -/
def mtbfEquipement (inters : List Intervention) : Option ℚ :=
  let correctives := inters.filter (fun i => i.type_intervention = "corrective")
  let nb_pannes := correctives.length
  if nb_pannes < 2 then none
  else
    match inters.map (fun i => toOrdinal i.date_intervention) with
    | [] => none
    | d :: ds =>
      let periode_jours := ds.foldl max d - ds.foldl min d
      if 0 < periode_jours then some (pyRound1 ((periode_jours : ℚ) / (nb_pannes : ℚ)))
      else none

/-- `MaintenanceService.calculer_mtbf`: group the completed interventions by
`equipement_nom` (defaultdict insertion order) and apply `mtbfEquipement` to
each group.  The `[] => none` branch of `mtbfEquipement` is unreachable
because every group is nonempty. -/
def calculer_mtbf (interventions : List Intervention) : List (String × Option ℚ) :=
  (uniqueKeys (fun i => i.equipement_nom) interventions).map (fun nom =>
    (nom, mtbfEquipement (interventions.filter (fun i => i.equipement_nom = nom))))

/-- The result dict of `MaintenanceService.calculer_tendance_couts`.  In the
insufficient-data branch the source dict has no `cout_s1`/`cout_s2` keys:
those fields are `none` there. -/
structure Tendance where
  tendance : String
  variation_pct : ℚ
  cout_s1 : Option ℚ
  cout_s2 : Option ℚ
  detail_mois : List (ℤ × ℚ)
deriving DecidableEq

/-- The `couts_par_mois` defaultdict of `calculer_tendance_couts`: per-month
summed cost of the completed interventions of year `annee`, keyed by month in
first-occurrence order. -/
def couts_par_mois (interventions : List Intervention) (annee : ℤ) : List (ℤ × ℚ) :=
  let annuelles := interventions.filter (fun i => i.date_intervention.year = annee)
  (uniqueKeys (fun i => i.date_intervention.month) annuelles).map (fun m =>
    (m, ((annuelles.filter (fun i => i.date_intervention.month = m)).map
      (fun i => i.cout)).sum))

/-- Python `couts_par_mois.get(m, 0)`. -/
def lookupMois (cpm : List (ℤ × ℚ)) (m : ℤ) : ℚ := (cpm.lookup m).getD 0

/-- `MaintenanceService.calculer_tendance_couts` for a given target year (the
source defaults the year to `get_annee_reference()`; the year is explicit
here). -/
def calculer_tendance_couts (interventions : List Intervention) (annee : ℤ) : Tendance :=
  let cpm := couts_par_mois interventions annee
  if cpm.length < 2 then
    ⟨"données insuffisantes", 0, none, none, cpm⟩
  else
    let s1 := (([1, 2, 3, 4, 5, 6] : List ℤ).map (lookupMois cpm)).sum
    let s2 := (([7, 8, 9, 10, 11, 12] : List ℤ).map (lookupMois cpm)).sum
    let variation : ℚ := if 0 < s1 then (s2 - s1) / s1 * 100 else if 0 < s2 then 100 else 0
    let tendance := if 10 < variation then "hausse"
      else if variation < -10 then "baisse" else "stable"
    ⟨tendance, pyRound2 variation, some (pyRound2 s1), some (pyRound2 s2),
      (stableSortBy Prod.fst cpm).map (fun p => (p.1, pyRound2 p.2))⟩

/-- One result row of `calculer_indice_fiabilite_equipements`. -/
structure FiabiliteRow where
  equipement_id : ℤ
  nom : String
  type : String
  age_annees : ℚ
  nb_interventions : ℕ
  nb_pannes : ℕ
  cout_total : ℚ
  indice_fiabilite : ℤ
deriving DecidableEq

/-- The per-equipment body of `calculer_indice_fiabilite_equipements`:
score = 100, minus 15 per corrective intervention, minus 10 per full 500-unit
tranche of total completed cost (`cout_total // 500`, a float floor
division), plus 10 if the age is under 2 years else minus 10 if over 5 years,
clamped to [0, 100] by `max(0, min(100, score))` and truncated by `int()`. -/
def fiabiliteRow (interventions : List Intervention) (date_reference : ℚ)
    (e : Equipement) : FiabiliteRow :=
  let inters := interventions.filter (fun i => i.equipement_id = e.id)
  let nb_correctives := (inters.filter (fun i => i.type_intervention = "corrective")).length
  let cout_total := (inters.map (fun i => i.cout)).sum
  let nb_interventions := inters.length
  let age_jours : ℤ := ⌊date_reference - (toOrdinal e.date_acquisition : ℚ)⌋
  let age_annees : ℚ := (age_jours : ℚ) / 365
  let score : ℚ := 100 - (nb_correctives : ℚ) * 15 - (⌊cout_total / 500⌋ : ℚ) * 10
    + (if age_annees < 2 then 10 else if 5 < age_annees then -10 else 0)
  ⟨e.id, e.nom, e.type, pyRound1 age_annees, nb_interventions, nb_correctives,
    pyRound2 cout_total, pyTrunc (max 0 (min 100 score))⟩

/-- `MaintenanceService.calculer_indice_fiabilite_equipements`: one row per
equipment, sorted by `indice_fiabilite` descending with Python's stable sort
(`reverse=True` on an integer key is the stable ascending sort of the negated
key). -/
def calculer_indice_fiabilite_equipements (equipements : List Equipement)
    (interventions : List Intervention) (date_reference : ℚ) : List FiabiliteRow :=
  stableSortBy (fun r => -r.indice_fiabilite)
    (equipements.map (fiabiliteRow interventions date_reference))

/-- One alert of `generer_alertes_maintenance`. -/
structure Alerte where
  equipement : String
  niveau : String
  message : String
deriving DecidableEq

/-- `ordre_niveaux.get(niveau, 3)`: the fixed precedence
CRITIQUE < ATTENTION < INFO < any unknown level. -/
def niveauKey (a : Alerte) : ℤ :=
  if a.niveau = "CRITIQUE" then 0
  else if a.niveau = "ATTENTION" then 1
  else if a.niveau = "INFO" then 2
  else 3

/-- Display of a parsed date inside an alert message (the source interpolates
the raw date string; only the message text differs, which no consumer
inspects). -/
def dateStr (d : Date) : String :=
  toString d.year ++ "-" ++ toString d.month ++ "-" ++ toString d.day

/-- Rule 1 of `generer_alertes_maintenance`, for one row of
`get_interventions_avec_details()`: for a planned preventive intervention,
`jours_restants = (date_prevue - date_reference).days + 1`; INFO when
`0 <= jours_restants <= 7`, ATTENTION when `jours_restants < 0`, nothing
otherwise.  A date `strptime` rejects raises `ValueError` inside the `try`,
and the `except ValueError: pass` skips the row: the `none` branch. -/
def alerteRule1 (date_reference : ℚ) (inter : InterventionDetail) : List Alerte :=
  if inter.type_intervention = "preventive" ∧ inter.statut = "planifiee" then
    match inter.date_intervention with
    | none => []
    | some d =>
      let jours_restants := ⌊(toOrdinal d : ℚ) - date_reference⌋ + 1
      if 0 ≤ jours_restants ∧ jours_restants ≤ 7 then
        [⟨inter.equipement_nom, "INFO",
          "Maintenance préventive prévue le " ++ dateStr d ++ " (dans "
            ++ toString jours_restants ++ " jours)"⟩]
      else if jours_restants < 0 then
        [⟨inter.equipement_nom, "ATTENTION",
          "Maintenance préventive en retard de " ++ toString (-jours_restants)
            ++ " jours (prévue le " ++ dateStr d ++ ")"⟩]
      else []
  else []

/-- Rules 2 to 6 of `generer_alertes_maintenance` for one equipment, in the
order the source appends them: high usage hours, then either the
no-recorded-intervention INFO (with `continue`) or the stale-maintenance,
recent-failure-cluster and high-cost alerts. -/
def alertesEquipement (interventions_terminees : List Intervention)
    (date_reference : ℚ) (e : Equipement) : List Alerte :=
  let a_heures : List Alerte :=
    if e.heures_utilisation ≠ 0 ∧ 2000 < e.heures_utilisation then
      [⟨e.nom, "ATTENTION",
        "Utilisation élevée: " ++ toString e.heures_utilisation ++ " heures (> 2000h)"⟩]
    else []
  let inters := interventions_terminees.filter (fun i => i.equipement_id = e.id)
  match inters.map (fun i => toOrdinal i.date_intervention) with
  | [] =>
    a_heures ++ [⟨e.nom, "INFO",
      "Aucune intervention enregistrée - vérifier si maintenance préventive nécessaire"⟩]
  | d :: ds =>
    let derniere := ds.foldl max d
    let jours_depuis := ⌊date_reference - (derniere : ℚ)⌋
    let a_stale : List Alerte :=
      if 180 < jours_depuis then
        [⟨e.nom, "ATTENTION",
          "Pas de maintenance depuis " ++ toString jours_depuis ++ " jours"⟩]
      else []
    let six_mois : ℚ := date_reference - 180
    let pannes_recentes := (inters.filter (fun i =>
      i.type_intervention = "corrective" ∧ six_mois ≤ (toOrdinal i.date_intervention : ℚ))).length
    let a_pannes : List Alerte :=
      if 2 ≤ pannes_recentes then
        [⟨e.nom, "CRITIQUE",
          toString pannes_recentes ++ " pannes sur les 6 derniers mois - envisager remplacement"⟩]
      else []
    let cout_total := (inters.map (fun i => i.cout)).sum
    let a_cout : List Alerte :=
      if 1000 < cout_total then
        [⟨e.nom, "ATTENTION", "Coût de maintenance élevé: " ++ toString (pyRound2 cout_total) ++ "€"⟩]
      else []
    a_heures ++ a_stale ++ a_pannes ++ a_cout

/-- The alerts of `generer_alertes_maintenance` in generation order: the
rule-1 schedule alerts over all interventions first, then rules 2 to 6 per
equipment in equipment iteration order. -/
def alertesGenerees (equipements : List Equipement)
    (interventions_terminees : List Intervention)
    (toutes_interventions : List InterventionDetail) (date_reference : ℚ) : List Alerte :=
  toutes_interventions.flatMap (alerteRule1 date_reference)
    ++ equipements.flatMap (alertesEquipement interventions_terminees date_reference)

/-- `MaintenanceService.generer_alertes_maintenance`: the generated alerts,
stably sorted by `ordre_niveaux.get(niveau, 3)`. -/
def generer_alertes_maintenance (equipements : List Equipement)
    (interventions_terminees : List Intervention)
    (toutes_interventions : List InterventionDetail) (date_reference : ℚ) : List Alerte :=
  stableSortBy niveauKey
    (alertesGenerees equipements interventions_terminees toutes_interventions date_reference)

/-- One technician KPI row of `calculer_kpis_avances`. -/
structure KpiTechnicien where
  technicien : String
  nb : ℕ
  duree_moy : ℚ
  cout_moy : ℚ
deriving DecidableEq

/-- A row of `IndicateursDAO.get_frequence_interventions_par_type()` (the
fields `ratio_cp` reads).  Models the SQL `GROUP BY type_intervention` over
the completed interventions; group order is first occurrence (the SQL
`ORDER BY nombre DESC` is irrelevant to every consumer because the keys are
distinct). -/
structure FreqRow where
  type_intervention : String
  nombre : ℕ
deriving DecidableEq

def get_frequence_interventions_par_type (interventions : List Intervention) :
    List FreqRow :=
  (uniqueKeys (fun i => i.type_intervention) interventions).map (fun ty =>
    ⟨ty, (interventions.filter (fun i => i.type_intervention = ty)).length⟩)

/-- The `ratio_cp` dict of `calculer_kpis_avances`: `total` sums the counts of
every kind; `correctif`/`preventif` are `next(...)` over the frequency rows
with default 0; each percentage is `round(n / total * 100, 1)` when
`total > 0`, else 0. -/
structure RatioCP where
  correctif_pct : ℚ
  preventif_pct : ℚ
  total_interventions : ℕ
deriving DecidableEq

/-- Python `next((f['nombre'] for f in freq if f['type_intervention'] == kind), 0)`. -/
def ratio_nombre (freq : List FreqRow) (kind : String) : ℕ :=
  ((freq.find? (fun f => f.type_intervention = kind)).map (fun f => f.nombre)).getD 0

/-- `round((n / total * 100), 1) if total > 0 else 0` for one kind. -/
def ratio_pct (freq : List FreqRow) (kind : String) : ℚ :=
  if 0 < (freq.map (fun f => f.nombre)).sum
  then pyRound1 ((ratio_nombre freq kind : ℚ)
    / (((freq.map (fun f => f.nombre)).sum : ℕ) : ℚ) * 100)
  else 0

def ratio_cp_of (freq : List FreqRow) : RatioCP :=
  ⟨ratio_pct freq "corrective", ratio_pct freq "preventive",
   (freq.map (fun f => f.nombre)).sum⟩

/-- A row of `IndicateursDAO.get_interventions_par_mois(annee)` (the field the
budget forecast reads): per-month completed-cost totals of the year, ordered
by month. -/
structure MoisRow where
  mois : ℤ
  cout_total : ℚ
deriving DecidableEq

def get_interventions_par_mois (interventions : List Intervention) (annee : ℤ) :
    List MoisRow :=
  (stableSortBy Prod.fst (couts_par_mois interventions annee)).map (fun p => ⟨p.1, p.2⟩)

/-- The result dict of `calculer_kpis_avances`. -/
structure Kpis where
  techniciens : List KpiTechnicien
  ratio_cp : RatioCP
  cout_heure_moyen : ℚ
  prevision_budget_6mois : ℚ
  mtbf : List (String × Option ℚ)
deriving DecidableEq

/-- `MaintenanceService.calculer_kpis_avances`.  The source takes the
reference year from `get_annee_reference()` (most recent year with data, else
the current year); its DAO helper `get_annees_disponibles` is absent from the
sources, so the year is an explicit parameter here. -/
def calculer_kpis_avances (s : Store) (annee_reference : ℤ) : Kpis :=
  let techniciens_kpi := (s.perf_techniciens.filter
      (fun p => 0 < p.nombre_interventions)).map
    (fun p => (⟨p.technicien, p.nombre_interventions, pyRound1 p.temps_moyen,
      pyRound2 (p.valeur_interventions / (p.nombre_interventions : ℚ))⟩ : KpiTechnicien))
  let freq := get_frequence_interventions_par_type s.interventions
  let total_heures := (s.equipements.map (fun e => e.heures_utilisation)).sum
  let total_cout := (s.interventions.map (fun i => i.cout)).sum
  let cout_heure_moyen : ℚ :=
    if 0 < total_heures then pyRound4 (total_cout / (total_heures : ℚ)) else 0
  let couts_mensuels := get_interventions_par_mois s.interventions annee_reference
  let moyenne_mensuelle : ℚ :=
    if couts_mensuels.isEmpty then 0
    else ((couts_mensuels.map (fun c => c.cout_total)).sum) / (couts_mensuels.length : ℚ)
  ⟨techniciens_kpi, ratio_cp_of freq, cout_heure_moyen,
    pyRound2 (moyenne_mensuelle * 6) * (1.1 : ℚ),
    calculer_mtbf s.interventions⟩

/-- `StatistiquesDAO.get_cout_total_maintenance()`: SUM(cout) over completed. -/
def get_cout_total_maintenance (s : Store) : ℚ := (s.interventions.map (fun i => i.cout)).sum

/-- `StatistiquesDAO.get_nombre_interventions()`: COUNT(*) over ALL interventions. -/
def get_nombre_interventions (s : Store) : ℕ := s.toutes_interventions.length

/-- `StatistiquesDAO.get_duree_moyenne_intervention()`: AVG(duree_minutes)
over completed, rounded to 2 decimals, 0.0 when NULL. -/
def get_duree_moyenne_intervention (s : Store) : ℚ :=
  if s.interventions.isEmpty then 0
  else pyRound2 (((s.interventions.map (fun i => (i.duree_minutes : ℚ))).sum)
    / (s.interventions.length : ℚ))

/-- `IndicateursDAO.get_equipements_plus_sollicites(limit)`: the store's
pre-aggregated ranking, LIMIT applied. -/
def get_equipements_plus_sollicites (s : Store) (limit : ℕ) : List SolliciteRow :=
  s.plus_sollicites.take limit

/-- The nested `indicateurs_globaux` dict of `generer_rapport_synthese`. -/
structure IndicateursGlobaux where
  cout_total : ℚ
  nombre_interventions : ℕ
  duree_moyenne_minutes : ℚ
deriving DecidableEq

/-- The result dict of `generer_rapport_synthese`. -/
structure Rapport where
  indicateurs_globaux : IndicateursGlobaux
  taux_disponibilite : List (String × ℚ)
  tendance_couts : Tendance
  top_equipements_sollicites : List SolliciteRow
  frequence_par_type : List FreqRow
  alertes : List Alerte
deriving DecidableEq

/-- `MaintenanceService.generer_rapport_synthese`: pure assembly of the other
indicators (the cost-trend year defaults to `get_annee_reference()`, explicit
here as for the KPIs). -/
def generer_rapport_synthese (s : Store) (date_reference : ℚ) (annee_reference : ℤ) :
    Rapport :=
  ⟨⟨get_cout_total_maintenance s, get_nombre_interventions s,
      get_duree_moyenne_intervention s⟩,
    calculer_taux_disponibilite_equipements s.equipements,
    calculer_tendance_couts s.interventions annee_reference,
    get_equipements_plus_sollicites s 5,
    get_frequence_interventions_par_type s.interventions,
    generer_alertes_maintenance s.equipements s.interventions s.toutes_interventions
      date_reference⟩

theorem lookup_map_self [DecidableEq κ] [BEq κ] [LawfulBEq κ] (f : κ → β) (ks : List κ)
    (k : κ) (hk : k ∈ ks) : ((ks.map (fun x => (x, f x))).lookup k) = some (f k) := by
  induction ks with
  | nil => exact absurd hk (List.not_mem_nil _)
  | cons a t ih =>
    rcases List.mem_cons.mp hk with rfl | hk2
    · simp [List.lookup]
    · by_cases hka : k = a
      · subst hka; simp [List.lookup]
      · simpa [List.lookup, beq_eq_false_iff_ne.mpr hka] using ih hk2

theorem lookup_map_isSome [DecidableEq κ] [BEq κ] [LawfulBEq κ] (f : κ → β) (ks : List κ)
    (k : κ) : ((ks.map (fun x => (x, f x))).lookup k).isSome = true ↔ k ∈ ks := by
  induction ks with
  | nil => simp [List.lookup]
  | cons a t ih =>
    by_cases hka : k = a
    · subst hka; simp [List.lookup]
    · simp [List.lookup, beq_eq_false_iff_ne.mpr hka, ih, hka]

theorem flatMap_filter_of_nil (f : α → List β) (p : α → Bool) (l : List α)
    (h : ∀ a ∈ l, p a = false → f a = []) : l.flatMap f = (l.filter p).flatMap f := by
  induction l with
  | nil => rfl
  | cons a t ih =>
    have ht := ih (fun b hb => h b (List.mem_cons_of_mem _ hb))
    by_cases hp : p a
    · simp [List.filter_cons, hp, ht]
    · have hnil := h a (List.mem_cons_self _ _) (Bool.of_not_eq_true hp)
      simp [List.filter_cons, hp, hnil, ht]

theorem pyTrunc_clamp_bounds (x : ℚ) :
    0 ≤ pyTrunc (max 0 (min 100 x)) ∧ pyTrunc (max 0 (min 100 x)) ≤ 100 := by
  set t : ℚ := max 0 (min 100 x) with ht
  have h0 : 0 ≤ t := le_max_left 0 _
  have h100 : t ≤ 100 := by
    rw [ht]
    rcases le_total (min 100 x) 0 with h | h
    · simp only [max_eq_left h]; norm_num
    · rw [max_eq_right h]; exact min_le_left 100 x
  unfold pyTrunc
  rw [if_pos h0]
  constructor
  · exact Int.floor_nonneg.mpr h0
  · have h : ⌊t⌋ ≤ ⌊(100 : ℚ)⌋ := Int.floor_le_floor h100
    simpa using h

theorem uniqueKeys_replicate_append (key : α → κ) [DecidableEq κ] (a : α) (l : List α) :
    ∀ n : ℕ, n ≠ 0 →
      uniqueKeys key (List.replicate n a ++ l)
        = key a :: (uniqueKeys key l).filter (fun k => k ≠ key a) := by
  intro n
  induction n with
  | zero => intro h; exact absurd rfl h
  | succ n ih =>
    intro _
    by_cases hn : n = 0
    · subst hn; simp [uniqueKeys]
    · rw [List.replicate_succ, List.cons_append]
      show uniqueKeys key (a :: (List.replicate n a ++ l)) = _
      rw [uniqueKeys, ih hn]
      simp [List.filter_filter, List.filter_cons]

set_option maxRecDepth 4000

/-- C7: `calculer_taux_disponibilite_equipements` returns the empty mapping
when there is no equipment; otherwise it maps every equipment type that
occurs, and only those, to `round(active_count / total_count * 100, 2)`;
every returned rate lies in [0, 100]; and summing each type's active count
recovers the total number of active equipment. -/
theorem C7_taux_disponibilite (equipements : List Equipement) :
    (calculer_taux_disponibilite_equipements [] = [])
    ∧ (∀ ty : String,
        (∃ p ∈ calculer_taux_disponibilite_equipements equipements, p.1 = ty)
          ↔ ∃ e ∈ equipements, e.type = ty)
    ∧ (∀ p ∈ calculer_taux_disponibilite_equipements equipements,
        p.2 = pyRound2
          (((((equipements.filter (fun e => e.type = p.1)).filter
                (fun e => e.statut = "actif")).length : ℚ)
              / ((equipements.filter (fun e => e.type = p.1)).length : ℚ)) * 100))
    ∧ (∀ p ∈ calculer_taux_disponibilite_equipements equipements,
        0 ≤ p.2 ∧ p.2 ≤ 100)
    ∧ (((uniqueKeys (fun e => e.type) equipements).map (fun ty =>
          ((equipements.filter (fun e => e.type = ty)).filter
            (fun e => e.statut = "actif")).length)).sum
        = (equipements.filter (fun e => e.statut = "actif")).length) := by
  have hval : ∀ p ∈ calculer_taux_disponibilite_equipements equipements,
      p.1 ∈ uniqueKeys (fun e => e.type) equipements
      ∧ p.2 = pyRound2
          (((((equipements.filter (fun e => e.type = p.1)).filter
                (fun e => e.statut = "actif")).length : ℚ)
              / ((equipements.filter (fun e => e.type = p.1)).length : ℚ)) * 100) := by
    intro p hp
    unfold calculer_taux_disponibilite_equipements at hp
    rcases List.mem_map.mp hp with ⟨ty, hty, hpe⟩
    subst hpe
    exact ⟨hty, rfl⟩
  refine ⟨rfl, ?_, fun p hp => (hval p hp).2, ?_, ?_⟩
  · intro ty
    constructor
    · rintro ⟨p, hp, rfl⟩
      exact (mem_uniqueKeys _ _ _).mp (hval p hp).1
    · intro h
      have hty := (mem_uniqueKeys (fun e => e.type) equipements ty).mpr h
      exact ⟨(ty, pyRound2
        (((((equipements.filter (fun e => e.type = ty)).filter
              (fun e => e.statut = "actif")).length : ℚ)
            / ((equipements.filter (fun e => e.type = ty)).length : ℚ)) * 100)),
        List.mem_map.mpr ⟨ty, hty, rfl⟩, rfl⟩
  · intro p hp
    have h2 := (hval p hp).2
    have hty := (mem_uniqueKeys (fun e => e.type) equipements p.1).mp (hval p hp).1
    rcases hty with ⟨e, he, hety⟩
    have hmem : e ∈ equipements.filter (fun e2 => e2.type = p.1) :=
      List.mem_filter.mpr ⟨he, by simp [hety]⟩
    have hpos : 0 < (equipements.filter (fun e2 => e2.type = p.1)).length :=
      List.length_pos.mpr (List.ne_nil_of_mem hmem)
    set A : ℕ := ((equipements.filter (fun e2 => e2.type = p.1)).filter
      (fun e2 => e2.statut = "actif")).length with hA
    set T : ℕ := (equipements.filter (fun e2 => e2.type = p.1)).length with hT
    have hAT : A ≤ T := by
      rw [hA, hT]
      exact List.Sublist.length_le (List.filter_sublist _)
    have hTpos : (0 : ℚ) < (T : ℚ) := by exact_mod_cast hpos
    have hfrac0 : 0 ≤ ((A : ℚ) / (T : ℚ)) * 100 := by positivity
    have hfrac100 : ((A : ℚ) / (T : ℚ)) * 100 ≤ 100 := by
      have hle : (A : ℚ) / (T : ℚ) ≤ 1 := by
        rw [div_le_one hTpos]
        exact_mod_cast hAT
      nlinarith
    rw [h2]
    exact ⟨pyRound2_nonneg _ hfrac0, pyRound2_le_hundred _ hfrac100⟩
  · have hcover : ∀ e ∈ equipements, decide (e.statut = "actif") = true →
        e.type ∈ uniqueKeys (fun e2 => e2.type) equipements := by
      intro e he _
      exact (mem_uniqueKeys _ _ _).mpr ⟨e, he, rfl⟩
    have h := sum_length_filter_cover (fun e : Equipement => e.type)
      (fun e => decide (e.statut = "actif"))
      (uniqueKeys (fun e => e.type) equipements) equipements
      (nodup_uniqueKeys _ _) hcover
    have hmapeq : ∀ ty ∈ uniqueKeys (fun e : Equipement => e.type) equipements,
        ((equipements.filter (fun e => e.type = ty)).filter
          (fun e => e.statut = "actif")).length
        = (equipements.filter (fun e =>
            decide (e.type = ty) && decide (e.statut = "actif"))).length := by
      intro ty _
      rw [List.filter_filter]
      congr 1
      exact List.filter_congr (fun e _ => by by_cases h1 : e.type = ty <;>
        by_cases h2 : e.statut = "actif" <;> simp [h1, h2])
    rw [List.map_congr_left hmapeq, h]

theorem mtbfEquipement_spec (inters : List Intervention) (hne : inters ≠ []) :
    mtbfEquipement inters
      = (if (inters.filter (fun i => i.type_intervention = "corrective")).length < 2 then none
         else if 0 < ((inters.map (fun i => toOrdinal i.date_intervention)).foldl max
              ((inters.map (fun i => toOrdinal i.date_intervention)).headD 0)
            - (inters.map (fun i => toOrdinal i.date_intervention)).foldl min
              ((inters.map (fun i => toOrdinal i.date_intervention)).headD 0))
         then some (pyRound1
            ((((inters.map (fun i => toOrdinal i.date_intervention)).foldl max
                ((inters.map (fun i => toOrdinal i.date_intervention)).headD 0)
              - (inters.map (fun i => toOrdinal i.date_intervention)).foldl min
                ((inters.map (fun i => toOrdinal i.date_intervention)).headD 0) : ℤ) : ℚ)
            / ((inters.filter (fun i => i.type_intervention = "corrective")).length : ℚ)))
         else none) := by
  cases inters with
  | nil => exact absurd rfl hne
  | cons j js =>
    simp only [mtbfEquipement, List.map_cons, List.headD_cons, List.foldl_cons,
      max_self, min_self]

/-- C2: for every equipment name occurring in the completed-interventions
input, the `calculer_mtbf` entry is the absent marker when that name's group
has fewer than 2 corrective interventions; otherwise, with the period taken
over ALL of the group's interventions (max date minus min date, in days), the
entry is `round(periode / nb_correctives, 1)` when the period is positive and
the absent marker when it is zero. -/
theorem C2_mtbf (interventions : List Intervention) (nom : String)
    (h : ∃ i ∈ interventions, i.equipement_nom = nom) :
    (calculer_mtbf interventions).lookup nom
      = some (
        if ((interventions.filter (fun i => i.equipement_nom = nom)).filter
            (fun i => i.type_intervention = "corrective")).length < 2 then none
        else if 0 < (((interventions.filter (fun i => i.equipement_nom = nom)).map
              (fun i => toOrdinal i.date_intervention)).foldl max
              (((interventions.filter (fun i => i.equipement_nom = nom)).map
                (fun i => toOrdinal i.date_intervention)).headD 0)
            - ((interventions.filter (fun i => i.equipement_nom = nom)).map
              (fun i => toOrdinal i.date_intervention)).foldl min
              (((interventions.filter (fun i => i.equipement_nom = nom)).map
                (fun i => toOrdinal i.date_intervention)).headD 0))
        then some (pyRound1
          (((((interventions.filter (fun i => i.equipement_nom = nom)).map
                (fun i => toOrdinal i.date_intervention)).foldl max
                (((interventions.filter (fun i => i.equipement_nom = nom)).map
                  (fun i => toOrdinal i.date_intervention)).headD 0)
              - ((interventions.filter (fun i => i.equipement_nom = nom)).map
                (fun i => toOrdinal i.date_intervention)).foldl min
                (((interventions.filter (fun i => i.equipement_nom = nom)).map
                  (fun i => toOrdinal i.date_intervention)).headD 0) : ℤ) : ℚ)
            / (((interventions.filter (fun i => i.equipement_nom = nom)).filter
                (fun i => i.type_intervention = "corrective")).length : ℚ)))
        else none) := by
  have hmem : nom ∈ uniqueKeys (fun i => i.equipement_nom) interventions :=
    (mem_uniqueKeys _ _ _).mpr h
  obtain ⟨i0, hi0, hi0nom⟩ := h
  have hne : interventions.filter (fun i => i.equipement_nom = nom) ≠ [] :=
    List.ne_nil_of_mem (List.mem_filter.mpr ⟨hi0, by simp [hi0nom]⟩)
  unfold calculer_mtbf
  rw [lookup_map_self (fun nom2 => mtbfEquipement
    (interventions.filter (fun i => i.equipement_nom = nom2))) _ _ hmem]
  rw [mtbfEquipement_spec _ hne]

/-- C2 witness: an equipment whose completed interventions are exactly two
correctives 30 days apart yields an MTBF of 15.0. -/
theorem C2_mtbf_witness :
    (calculer_mtbf [⟨1, "A", ⟨2024, 1, 1⟩, "corrective", 0, 0⟩,
                    ⟨1, "A", ⟨2024, 1, 31⟩, "corrective", 0, 0⟩]).lookup "A"
      = some (some 15) := by
  have h := C2_mtbf [⟨1, "A", ⟨2024, 1, 1⟩, "corrective", 0, 0⟩,
                     ⟨1, "A", ⟨2024, 1, 31⟩, "corrective", 0, 0⟩] "A"
    ⟨⟨1, "A", ⟨2024, 1, 1⟩, "corrective", 0, 0⟩, List.mem_cons_self _ _, rfl⟩
  rw [h]
  with_unfolding_all decide

/-- C10: `calculer_mtbf` keys its result by equipment name: a name has an
entry exactly when some completed intervention bears it (an equipment with no
completed interventions has no entry at all), and completed interventions of
distinct equipment records sharing one name are pooled into a single entry
computed over the union of their interventions — here two different equipment
ids with one corrective each, 30 days apart, give the single entry 15.0
(neither id alone has the 2 correctives an MTBF needs). -/
theorem C10_mtbf_cle_nom (interventions : List Intervention) (nom : String) :
    (((calculer_mtbf interventions).lookup nom).isSome = true
      ↔ ∃ i ∈ interventions, i.equipement_nom = nom)
    ∧ calculer_mtbf [⟨1, "A", ⟨2024, 1, 1⟩, "corrective", 0, 0⟩,
                     ⟨2, "A", ⟨2024, 1, 31⟩, "corrective", 0, 0⟩]
        = [("A", some 15)] := by
  constructor
  · unfold calculer_mtbf
    rw [lookup_map_isSome]
    exact mem_uniqueKeys _ _ _
  · with_unfolding_all decide

/-- C1: each equipment's reliability score starts at 100, subtracts 15 per
completed corrective intervention, subtracts 10 per full 500-unit tranche of
completed cost, adds 10 when age (floor days / 365) is under 2 years else
subtracts 10 when over 5 years, is clamped to [0, 100] and truncated toward
zero; the score is an integer in [0, 100] (the concrete conjunct: 0 failures,
0 cost, age exactly 1 year gives 110 clamped to 100); and the result list is
the stable descending sort by score (sortedness, and tie classes keep the
original equipment order). -/
theorem C1_indice_fiabilite (equipements : List Equipement)
    (interventions : List Intervention) (date_reference : ℚ) :
    (calculer_indice_fiabilite_equipements equipements interventions date_reference
        = stableSortBy (fun r => -r.indice_fiabilite)
            (equipements.map (fiabiliteRow interventions date_reference)))
    ∧ (∀ e : Equipement,
        (fiabiliteRow interventions date_reference e).indice_fiabilite
          = pyTrunc (max 0 (min 100
              (100
                - (((interventions.filter (fun i => i.equipement_id = e.id)).filter
                    (fun i => i.type_intervention = "corrective")).length : ℚ) * 15
                - (⌊(((interventions.filter (fun i => i.equipement_id = e.id)).map
                    (fun i => i.cout)).sum) / 500⌋ : ℚ) * 10
                + (if ((⌊date_reference - (toOrdinal e.date_acquisition : ℚ)⌋ : ℚ) / 365) < 2
                    then 10
                    else if 5 < ((⌊date_reference - (toOrdinal e.date_acquisition : ℚ)⌋ : ℚ) / 365)
                    then -10 else 0)))))
    ∧ (∀ r ∈ calculer_indice_fiabilite_equipements equipements interventions date_reference,
        0 ≤ r.indice_fiabilite ∧ r.indice_fiabilite ≤ 100)
    ∧ List.Pairwise (fun a b => b.indice_fiabilite ≤ a.indice_fiabilite)
        (calculer_indice_fiabilite_equipements equipements interventions date_reference)
    ∧ (∀ k : ℤ,
        (calculer_indice_fiabilite_equipements equipements interventions date_reference).filter
            (fun r => r.indice_fiabilite = k)
          = (equipements.map (fiabiliteRow interventions date_reference)).filter
              (fun r => r.indice_fiabilite = k))
    ∧ ((calculer_indice_fiabilite_equipements
          [⟨1, "A", "laptop", "actif", ⟨2024, 1, 2⟩, 0⟩] []
          ((toOrdinal ⟨2025, 1, 1⟩ : ℤ) : ℚ)).map (fun r => r.indice_fiabilite) = [100]) := by
  refine ⟨rfl, fun e => rfl, ?_, ?_, ?_, by with_unfolding_all decide⟩
  · intro r hr
    have hperm := stableSortBy_perm (fun r2 : FiabiliteRow => -r2.indice_fiabilite)
      (equipements.map (fiabiliteRow interventions date_reference))
    have hr2 : r ∈ equipements.map (fiabiliteRow interventions date_reference) :=
      hperm.mem_iff.mp hr
    rcases List.mem_map.mp hr2 with ⟨e, _, rfl⟩
    exact pyTrunc_clamp_bounds _
  · have h := stableSortBy_sorted (fun r : FiabiliteRow => -r.indice_fiabilite)
      (equipements.map (fiabiliteRow interventions date_reference))
    exact h.imp (fun hab => by omega)
  · intro k
    exact stableSortBy_filter _ _ _
      (fun a b ha hb => by
        have ha2 : a.indice_fiabilite = k := by simpa using ha
        have hb2 : b.indice_fiabilite = k := by simpa using hb
        rw [ha2, hb2])

theorem fst_couts_par_mois (interventions : List Intervention) (annee : ℤ) :
    (couts_par_mois interventions annee).map Prod.fst
      = uniqueKeys (fun i => i.date_intervention.month)
          (interventions.filter (fun i => i.date_intervention.year = annee)) := by
  unfold couts_par_mois
  rw [List.map_map]
  exact List.map_id _

theorem nodup_fst_couts_par_mois (interventions : List Intervention) (annee : ℤ) :
    ((couts_par_mois interventions annee).map Prod.fst).Nodup := by
  rw [fst_couts_par_mois]
  exact nodup_uniqueKeys _ _

/-- C4: with fewer than 2 distinct months carrying cost data the trend is
"données insuffisantes" with variation 0 and the partial month detail;
otherwise, with `s1` the summed month costs of months 1-6 and `s2` of months
7-12, the variation is `(s2-s1)/s1*100` when `s1 > 0`, else 100 when
`s2 > 0`, else 0; the classification is "hausse" iff variation > 10,
"baisse" iff variation < -10, else "stable"; the output carries `s1`, `s2`
and the variation rounded to 2 decimals and the month-to-cost detail sorted
by month ascending (the two closed conjuncts: s1=100, s2=115 gives +15%
"hausse"; s1=100, s2=95 gives -5% "stable"). -/
theorem C4_tendance_couts (interventions : List Intervention) (annee : ℤ) :
    ((couts_par_mois interventions annee).length < 2 →
        calculer_tendance_couts interventions annee
          = ⟨"données insuffisantes", 0, none, none, couts_par_mois interventions annee⟩)
    ∧ (2 ≤ (couts_par_mois interventions annee).length →
        ((calculer_tendance_couts interventions annee).tendance
            = (if 10 < (if 0 < (([1, 2, 3, 4, 5, 6] : List ℤ).map
                  (lookupMois (couts_par_mois interventions annee))).sum
                then ((([7, 8, 9, 10, 11, 12] : List ℤ).map
                    (lookupMois (couts_par_mois interventions annee))).sum
                  - (([1, 2, 3, 4, 5, 6] : List ℤ).map
                    (lookupMois (couts_par_mois interventions annee))).sum)
                  / (([1, 2, 3, 4, 5, 6] : List ℤ).map
                    (lookupMois (couts_par_mois interventions annee))).sum * 100
                else if 0 < (([7, 8, 9, 10, 11, 12] : List ℤ).map
                  (lookupMois (couts_par_mois interventions annee))).sum then 100 else 0)
              then "hausse"
              else if (if 0 < (([1, 2, 3, 4, 5, 6] : List ℤ).map
                  (lookupMois (couts_par_mois interventions annee))).sum
                then ((([7, 8, 9, 10, 11, 12] : List ℤ).map
                    (lookupMois (couts_par_mois interventions annee))).sum
                  - (([1, 2, 3, 4, 5, 6] : List ℤ).map
                    (lookupMois (couts_par_mois interventions annee))).sum)
                  / (([1, 2, 3, 4, 5, 6] : List ℤ).map
                    (lookupMois (couts_par_mois interventions annee))).sum * 100
                else if 0 < (([7, 8, 9, 10, 11, 12] : List ℤ).map
                  (lookupMois (couts_par_mois interventions annee))).sum then 100 else 0) < -10
              then "baisse" else "stable"))
        ∧ (calculer_tendance_couts interventions annee).variation_pct
            = pyRound2 (if 0 < (([1, 2, 3, 4, 5, 6] : List ℤ).map
                  (lookupMois (couts_par_mois interventions annee))).sum
                then ((([7, 8, 9, 10, 11, 12] : List ℤ).map
                    (lookupMois (couts_par_mois interventions annee))).sum
                  - (([1, 2, 3, 4, 5, 6] : List ℤ).map
                    (lookupMois (couts_par_mois interventions annee))).sum)
                  / (([1, 2, 3, 4, 5, 6] : List ℤ).map
                    (lookupMois (couts_par_mois interventions annee))).sum * 100
                else if 0 < (([7, 8, 9, 10, 11, 12] : List ℤ).map
                  (lookupMois (couts_par_mois interventions annee))).sum then 100 else 0)
        ∧ (calculer_tendance_couts interventions annee).cout_s1
            = some (pyRound2 ((([1, 2, 3, 4, 5, 6] : List ℤ).map
                (lookupMois (couts_par_mois interventions annee))).sum)
              )
        ∧ (calculer_tendance_couts interventions annee).cout_s2
            = some (pyRound2 ((([7, 8, 9, 10, 11, 12] : List ℤ).map
                (lookupMois (couts_par_mois interventions annee))).sum)
              )
        ∧ List.Perm (calculer_tendance_couts interventions annee).detail_mois
            ((couts_par_mois interventions annee).map (fun p => (p.1, pyRound2 p.2)))
        ∧ List.Pairwise (fun p q => p.1 < q.1)
            (calculer_tendance_couts interventions annee).detail_mois)
    ∧ calculer_tendance_couts
        [⟨1, "A", ⟨2024, 1, 10⟩, "corrective", 100, 0⟩,
         ⟨1, "A", ⟨2024, 7, 10⟩, "corrective", 115, 0⟩] 2024
        = ⟨"hausse", 15, some 100, some 115, [(1, 100), (7, 115)]⟩
    ∧ calculer_tendance_couts
        [⟨1, "A", ⟨2024, 1, 10⟩, "corrective", 100, 0⟩,
         ⟨1, "A", ⟨2024, 7, 10⟩, "corrective", 95, 0⟩] 2024
        = ⟨"stable", -5, some 100, some 95, [(1, 100), (7, 95)]⟩ := by
  refine ⟨?_, ?_, by with_unfolding_all decide, by with_unfolding_all decide⟩
  · intro hlt
    unfold calculer_tendance_couts
    rw [if_pos hlt]
  · intro hge
    have hnot : ¬ (couts_par_mois interventions annee).length < 2 := by omega
    have hsorted := stableSortBy_sorted (fun p : ℤ × ℚ => p.1)
      (couts_par_mois interventions annee)
    have hperm := stableSortBy_perm (fun p : ℤ × ℚ => p.1) (couts_par_mois interventions annee)
    have hnd : ((stableSortBy (fun p : ℤ × ℚ => p.1)
        (couts_par_mois interventions annee)).map Prod.fst).Nodup :=
      ((hperm.map Prod.fst).nodup_iff).mpr (nodup_fst_couts_par_mois interventions annee)
    have hpsorted : List.Pairwise (fun p q : ℤ × ℚ => p.1 < q.1)
        (stableSortBy (fun p : ℤ × ℚ => p.1) (couts_par_mois interventions annee)) := by
      have hne := List.pairwise_map.mp hnd
      exact (hsorted.and hne).imp (fun hab => lt_of_le_of_ne hab.1 hab.2)
    unfold calculer_tendance_couts
    rw [if_neg hnot]
    refine ⟨rfl, rfl, rfl, rfl, hperm.map _, ?_⟩
    refine List.pairwise_map.mpr (hpsorted.imp ?_)
    intro p q h
    simpa using h

/-- C5: for a planned preventive intervention,
`jours_restants = (date_prevue - date_reference).days + 1`; rule 1 emits an
INFO alert iff `0 ≤ jours_restants ≤ 7`, an overdue ATTENTION alert iff
`jours_restants < 0` and nothing otherwise; a row whose date string fails to
parse is silently skipped — it emits nothing, and dropping every such row
from the input leaves the whole alert output unchanged (no error surfaces). -/
theorem C5_alertes_rule1 (date_reference : ℚ) (inter : InterventionDetail)
    (hk : inter.type_intervention = "preventive") (hst : inter.statut = "planifiee") :
    (∀ d : Date, inter.date_intervention = some d →
      (alerteRule1 date_reference inter).map (fun a => (a.equipement, a.niveau))
        = (if 0 ≤ ⌊(toOrdinal d : ℚ) - date_reference⌋ + 1
              ∧ ⌊(toOrdinal d : ℚ) - date_reference⌋ + 1 ≤ 7
           then [(inter.equipement_nom, "INFO")]
           else if ⌊(toOrdinal d : ℚ) - date_reference⌋ + 1 < 0
           then [(inter.equipement_nom, "ATTENTION")]
           else []))
    ∧ (inter.date_intervention = none → alerteRule1 date_reference inter = [])
    ∧ (∀ (equipements : List Equipement) (terminees : List Intervention)
          (toutes : List InterventionDetail),
        generer_alertes_maintenance equipements terminees toutes date_reference
          = generer_alertes_maintenance equipements terminees
              (toutes.filter (fun i => i.date_intervention.isSome)) date_reference) := by
  refine ⟨?_, ?_, ?_⟩
  · intro d hd
    unfold alerteRule1
    rw [if_pos ⟨hk, hst⟩, hd]
    dsimp only
    split_ifs with h1 h2 <;> simp
  · intro hd
    unfold alerteRule1
    rw [if_pos ⟨hk, hst⟩, hd]
  · intro equipements terminees toutes
    unfold generer_alertes_maintenance alertesGenerees
    have h := flatMap_filter_of_nil (alerteRule1 date_reference)
      (fun i => i.date_intervention.isSome) toutes ?_
    · rw [h]
    · intro a _ ha
      have hnone : a.date_intervention = none := by
        cases hcase : a.date_intervention with
        | none => rfl
        | some d => simp [hcase] at ha
      unfold alerteRule1
      rw [hnone]
      split_ifs <;> rfl

/-- C5 witness: a planned preventive intervention 2 days ahead of the
reference instant emits exactly one INFO alert, and one with an unparseable
date emits nothing. -/
theorem C5_alertes_rule1_witness :
    ((alerteRule1 ((toOrdinal ⟨2025, 1, 1⟩ : ℤ) : ℚ)
        ⟨"A", some ⟨2025, 1, 3⟩, "preventive", "planifiee"⟩).map
          (fun a => (a.equipement, a.niveau)) = [("A", "INFO")])
    ∧ (alerteRule1 ((toOrdinal ⟨2025, 1, 1⟩ : ℤ) : ℚ)
        ⟨"A", none, "preventive", "planifiee"⟩ = []) := by
  constructor
  · have h := (C5_alertes_rule1 ((toOrdinal ⟨2025, 1, 1⟩ : ℤ) : ℚ)
      ⟨"A", some ⟨2025, 1, 3⟩, "preventive", "planifiee"⟩ rfl rfl).1 ⟨2025, 1, 3⟩ rfl
    rw [h]
    with_unfolding_all decide
  · exact (C5_alertes_rule1 ((toOrdinal ⟨2025, 1, 1⟩ : ℤ) : ℚ)
      ⟨"A", none, "preventive", "planifiee"⟩ rfl rfl).2.1 rfl

/-- The example store for the C6 ordering conjunct: equipment A has two
recent cheap correctives (CRITIQUE), equipment B has no recorded
interventions (INFO), equipment C has high usage hours (ATTENTION), and no
planned preventive interventions exist, so generation order is CRITIQUE,
INFO, ATTENTION. -/
def exC6Equipements : List Equipement :=
  [⟨1, "A", "laptop", "actif", ⟨2024, 1, 1⟩, 0⟩,
   ⟨2, "B", "laptop", "actif", ⟨2024, 1, 1⟩, 0⟩,
   ⟨3, "C", "laptop", "actif", ⟨2024, 1, 1⟩, 2500⟩]

def exC6Terminees : List Intervention :=
  [⟨1, "A", ⟨2024, 5, 1⟩, "corrective", 10, 30⟩,
   ⟨1, "A", ⟨2024, 5, 2⟩, "corrective", 10, 30⟩,
   ⟨3, "C", ⟨2024, 5, 1⟩, "preventive", 5, 30⟩]

def exC6T : ℚ := ((toOrdinal ⟨2024, 6, 1⟩ : ℤ) : ℚ)

/-- C6: the alert list is the stable sort of the generated alerts by the
fixed precedence CRITIQUE(0) < ATTENTION(1) < INFO(2) < unknown(3): every
higher-precedence alert precedes every lower one, any two alerts of one level
keep their generation order (rule-1 alerts first, then the per-equipment
rules in equipment iteration order), and one CRITIQUE, one INFO and one
ATTENTION generated in that order come out as CRITIQUE, ATTENTION, INFO. -/
theorem C6_tri_alertes (equipements : List Equipement)
    (terminees : List Intervention) (toutes : List InterventionDetail)
    (date_reference : ℚ) :
    (generer_alertes_maintenance equipements terminees toutes date_reference
        = stableSortBy niveauKey (alertesGenerees equipements terminees toutes date_reference))
    ∧ (∀ a : Alerte,
        (a.niveau = "CRITIQUE" → niveauKey a = 0)
        ∧ (a.niveau = "ATTENTION" → niveauKey a = 1)
        ∧ (a.niveau = "INFO" → niveauKey a = 2)
        ∧ (a.niveau ≠ "CRITIQUE" → a.niveau ≠ "ATTENTION" → a.niveau ≠ "INFO" →
            niveauKey a = 3))
    ∧ List.Pairwise (fun a b => niveauKey a ≤ niveauKey b)
        (generer_alertes_maintenance equipements terminees toutes date_reference)
    ∧ (∀ lvl : String,
        (generer_alertes_maintenance equipements terminees toutes date_reference).filter
            (fun a => a.niveau = lvl)
          = (alertesGenerees equipements terminees toutes date_reference).filter
              (fun a => a.niveau = lvl))
    ∧ ((generer_alertes_maintenance exC6Equipements exC6Terminees [] exC6T).map
          (fun a => a.niveau) = ["CRITIQUE", "ATTENTION", "INFO"]
        ∧ (alertesGenerees exC6Equipements exC6Terminees [] exC6T).map
            (fun a => a.niveau) = ["CRITIQUE", "INFO", "ATTENTION"]) := by
  refine ⟨rfl, ?_, stableSortBy_sorted _ _, ?_,
    by with_unfolding_all decide, by with_unfolding_all decide⟩
  · intro a
    refine ⟨fun h => by simp [niveauKey, h], fun h => by simp [niveauKey, h],
      fun h => by simp [niveauKey, h], fun h1 h2 h3 => by simp [niveauKey, h1, h2, h3]⟩
  · intro lvl
    exact stableSortBy_filter _ _ _
      (fun a b ha hb => by
        have ha2 : a.niveau = lvl := by simpa using ha
        have hb2 : b.niveau = lvl := by simpa using hb
        unfold niveauKey
        rw [ha2, hb2])

/-- C8: every analytics function is a pure function of the record-store
snapshot, the reference instant read once per call, and the reference year:
two calls with the same snapshot and the same reference data give equal
(bit-identical) outputs for the availability rate, the MTBF, the cost trend,
the reliability index, the advanced KPIs, the alert list and the composite
report. -/
theorem C8_determinisme (s s2 : Store) (t t2 : ℚ) (annee annee2 : ℤ)
    (hstore : s = s2) (ht : t = t2) (ha : annee = annee2) :
    calculer_taux_disponibilite_equipements s.equipements
        = calculer_taux_disponibilite_equipements s2.equipements
    ∧ calculer_mtbf s.interventions = calculer_mtbf s2.interventions
    ∧ calculer_tendance_couts s.interventions annee
        = calculer_tendance_couts s2.interventions annee2
    ∧ calculer_indice_fiabilite_equipements s.equipements s.interventions t
        = calculer_indice_fiabilite_equipements s2.equipements s2.interventions t2
    ∧ calculer_kpis_avances s annee = calculer_kpis_avances s2 annee2
    ∧ generer_alertes_maintenance s.equipements s.interventions s.toutes_interventions t
        = generer_alertes_maintenance s2.equipements s2.interventions
            s2.toutes_interventions t2
    ∧ generer_rapport_synthese s t annee = generer_rapport_synthese s2 t2 annee2 := by
  subst hstore ht ha
  exact ⟨rfl, rfl, rfl, rfl, rfl, rfl, rfl⟩

/-- C8 witness: the determinism theorem applied to one concrete snapshot. -/
theorem C8_determinisme_witness :
    generer_rapport_synthese ⟨exC6Equipements, exC6Terminees, [], [], []⟩ exC6T 2024
      = generer_rapport_synthese ⟨exC6Equipements, exC6Terminees, [], [], []⟩ exC6T 2024 :=
  (C8_determinisme ⟨exC6Equipements, exC6Terminees, [], [], []⟩
    ⟨exC6Equipements, exC6Terminees, [], [], []⟩ exC6T exC6T 2024 2024
    rfl rfl rfl).2.2.2.2.2.2

/-- The example store for the C3 closed conjuncts: one completed intervention
in January 2024 costing 0.01, so the monthly average is 0.01 and the two
bracketings of round and the 10 percent margin differ (0.066 against 0.07). -/
def exC3Store : Store :=
  ⟨[], [⟨1, "A", ⟨2024, 1, 10⟩, "corrective", 1/100, 0⟩], [], [], []⟩

/-- C3: `prevision_budget_6mois` equals `round(moyenne * 6, 2) * 1.1` — the
10 percent multiplier is applied AFTER the rounding of the 6-month base — it
is 0 when the reference year has no monthly cost data, and on the concrete
store it differs from `round(moyenne * 6 * 1.1, 2)`. -/
theorem C3_prevision_budget (s : Store) (annee : ℤ) :
    ((calculer_kpis_avances s annee).prevision_budget_6mois
        = pyRound2 ((if (get_interventions_par_mois s.interventions annee).isEmpty then 0
            else ((get_interventions_par_mois s.interventions annee).map
                (fun c => c.cout_total)).sum
              / ((get_interventions_par_mois s.interventions annee).length : ℚ)) * 6)
          * (1.1 : ℚ))
    ∧ (get_interventions_par_mois s.interventions annee = [] →
        (calculer_kpis_avances s annee).prevision_budget_6mois = 0)
    ∧ (calculer_kpis_avances exC3Store 2024).prevision_budget_6mois = 33/500
    ∧ (calculer_kpis_avances exC3Store 2024).prevision_budget_6mois
        ≠ pyRound2 ((((get_interventions_par_mois exC3Store.interventions 2024).map
            (fun c => c.cout_total)).sum
          / ((get_interventions_par_mois exC3Store.interventions 2024).length : ℚ))
            * 6 * (1.1 : ℚ)) := by
  refine ⟨rfl, ?_, by with_unfolding_all decide, by with_unfolding_all decide⟩
  intro hnil
  show pyRound2 ((if (get_interventions_par_mois s.interventions annee).isEmpty then 0
      else ((get_interventions_par_mois s.interventions annee).map
          (fun c => c.cout_total)).sum
        / ((get_interventions_par_mois s.interventions annee).length : ℚ)) * 6)
    * (1.1 : ℚ) = 0
  rw [hnil]
  norm_num [pyRound2, rne]

/-- One intervention of the C9 counterexample store (all on one equipment;
only the kind varies). -/
def exC9Inter (k : String) : Intervention := ⟨1, "X", ⟨2024, 1, 1⟩, k, 0, 0⟩

/-- The C9 counterexample store: 1 installation, 500 corrective and 500
preventive completed interventions (total 1001). -/
def exC9Store : Store :=
  ⟨[], exC9Inter "installation" :: (List.replicate 500 (exC9Inter "corrective")
    ++ List.replicate 500 (exC9Inter "preventive")), [], [], []⟩

theorem exC9_keys :
    uniqueKeys (fun i : Intervention => i.type_intervention) exC9Store.interventions
      = ["installation", "corrective", "preventive"] := by
  have h1 : uniqueKeys (fun i : Intervention => i.type_intervention)
      (List.replicate 500 (exC9Inter "preventive")) = ["preventive"] := by
    have h := uniqueKeys_replicate_append (fun i : Intervention => i.type_intervention)
      (exC9Inter "preventive") [] 500 (by norm_num)
    rw [List.append_nil] at h
    rw [h]
    rfl
  have h2 : uniqueKeys (fun i : Intervention => i.type_intervention)
      (List.replicate 500 (exC9Inter "corrective")
        ++ List.replicate 500 (exC9Inter "preventive"))
      = ["corrective", "preventive"] := by
    rw [uniqueKeys_replicate_append (fun i : Intervention => i.type_intervention)
      (exC9Inter "corrective") (List.replicate 500 (exC9Inter "preventive")) 500
      (by norm_num), h1]
    decide
  show uniqueKeys (fun i : Intervention => i.type_intervention)
    (exC9Inter "installation" :: (List.replicate 500 (exC9Inter "corrective")
      ++ List.replicate 500 (exC9Inter "preventive"))) = _
  rw [uniqueKeys, h2]
  decide

theorem exC9_count (ty : String) :
    (exC9Store.interventions.filter (fun i => i.type_intervention = ty)).length
      = (if ("installation" : String) = ty then 1 else 0)
        + (if ("corrective" : String) = ty then 500 else 0)
        + (if ("preventive" : String) = ty then 500 else 0) := by
  show ((exC9Inter "installation" :: (List.replicate 500 (exC9Inter "corrective")
      ++ List.replicate 500 (exC9Inter "preventive"))).filter
      (fun i => i.type_intervention = ty)).length = _
  rw [List.filter_cons, List.filter_append, List.filter_replicate, List.filter_replicate]
  by_cases hi : ("installation" : String) = ty <;>
    by_cases hc : ("corrective" : String) = ty <;>
    by_cases hp : ("preventive" : String) = ty <;>
    simp [exC9Inter, hi, hc, hp]

theorem exC9_freq :
    get_frequence_interventions_par_type exC9Store.interventions
      = [⟨"installation", 1⟩, ⟨"corrective", 500⟩, ⟨"preventive", 500⟩] := by
  unfold get_frequence_interventions_par_type
  rw [exC9_keys]
  simp only [List.map_cons, List.map_nil, exC9_count]
  decide

/-- C9 counterexample: in a store whose completed interventions are 500
corrective, 500 preventive and 1 installation (total 1001), both percentages
are 50.0 and their sum is exactly 100, although a completed intervention of
another kind exists — the claimed strict inequality fails. -/
theorem C9_contre_exemple :
    (∃ i ∈ exC9Store.interventions, i.type_intervention ≠ "corrective"
        ∧ i.type_intervention ≠ "preventive")
    ∧ ¬ ((calculer_kpis_avances exC9Store 2024).ratio_cp.correctif_pct
          + (calculer_kpis_avances exC9Store 2024).ratio_cp.preventif_pct < 100) := by
  constructor
  · exact ⟨exC9Inter "installation", List.mem_cons_self _ _, by decide, by decide⟩
  · have hr : (calculer_kpis_avances exC9Store 2024).ratio_cp
        = ratio_cp_of (get_frequence_interventions_par_type exC9Store.interventions) := rfl
    rw [hr, exC9_freq]
    with_unfolding_all decide

theorem freq_nombre_eq (interventions : List Intervention) (f : FreqRow)
    (hf : f ∈ get_frequence_interventions_par_type interventions) :
    f.nombre = (interventions.filter
      (fun i => i.type_intervention = f.type_intervention)).length := by
  unfold get_frequence_interventions_par_type at hf
  rcases List.mem_map.mp hf with ⟨ty, _, rfl⟩
  rfl

theorem freq_total (interventions : List Intervention) :
    ((get_frequence_interventions_par_type interventions).map (fun f => f.nombre)).sum
      = interventions.length := by
  unfold get_frequence_interventions_par_type
  rw [List.map_map]
  have hcov : ∀ i ∈ interventions, (fun _ : Intervention => true) i = true →
      i.type_intervention ∈ uniqueKeys (fun i2 : Intervention => i2.type_intervention)
        interventions :=
    fun i hi _ => (mem_uniqueKeys _ _ _).mpr ⟨i, hi, rfl⟩
  have h := sum_length_filter_cover (fun i : Intervention => i.type_intervention)
    (fun _ => true) (uniqueKeys (fun i : Intervention => i.type_intervention) interventions)
    interventions (nodup_uniqueKeys _ _) hcov
  have hmap : ∀ ty ∈ uniqueKeys (fun i : Intervention => i.type_intervention) interventions,
      ((fun f : FreqRow => f.nombre) ∘ (fun ty2 => (⟨ty2, (interventions.filter
          (fun i => i.type_intervention = ty2)).length⟩ : FreqRow))) ty
        = (interventions.filter (fun i =>
            decide (i.type_intervention = ty) && (fun _ : Intervention => true) i)).length := by
    intro ty _
    simp [Function.comp]
  rw [List.map_congr_left hmap, h]
  simp


theorem ratio_kind_le (interventions : List Intervention) (kind : String) :
    ratio_nombre (get_frequence_interventions_par_type interventions) kind
      ≤ (interventions.filter (fun i => i.type_intervention = kind)).length := by
  unfold ratio_nombre
  cases hcase : (get_frequence_interventions_par_type interventions).find?
      (fun f => f.type_intervention = kind) with
  | none => simp
  | some f =>
    have hmem : f ∈ get_frequence_interventions_par_type interventions :=
      List.mem_of_find?_eq_some hcase
    have hkind : f.type_intervention = kind := by
      have := List.find?_some hcase
      simpa using this
    have hval := freq_nombre_eq interventions f hmem
    simp only [Option.map_some', Option.getD_some]
    rw [hval, hkind]

theorem pct_bound_aux (n T : ℕ) (hn : n ≤ T) :
    0 ≤ (if 0 < T then pyRound1 ((n : ℚ) / (T : ℚ) * 100) else 0)
    ∧ (if 0 < T then pyRound1 ((n : ℚ) / (T : ℚ) * 100) else 0) ≤ 100 := by
  by_cases hT : 0 < T
  · rw [if_pos hT]
    have hTq : (0 : ℚ) < (T : ℚ) := by exact_mod_cast hT
    have hnq : (n : ℚ) ≤ (T : ℚ) := by exact_mod_cast hn
    have hx0 : 0 ≤ (n : ℚ) / (T : ℚ) * 100 := by positivity
    have hx100 : (n : ℚ) / (T : ℚ) * 100 ≤ 100 := by
      have h1 : (n : ℚ) / (T : ℚ) ≤ 1 := (div_le_one hTq).mpr hnq
      nlinarith
    exact ⟨pyRound1_nonneg _ hx0, pyRound1_le_hundred _ hx100⟩
  · rw [if_neg hT]
    norm_num

theorem pct_sum_aux (c p T : ℕ) (hcp : c + p + 1 ≤ T) :
    pyRound1 ((c : ℚ) / (T : ℚ) * 100) + pyRound1 ((p : ℚ) / (T : ℚ) * 100) ≤ 100 := by
  have hT : 0 < T := by omega
  have hTq : (0 : ℚ) < (T : ℚ) := by exact_mod_cast hT
  have hcpq : (c : ℚ) + (p : ℚ) + 1 ≤ (T : ℚ) := by exact_mod_cast hcp
  have h1 := rne_le ((c : ℚ) / (T : ℚ) * 100 * 10)
  have h2 := rne_le ((p : ℚ) / (T : ℚ) * 100 * 10)
  have hXY : (c : ℚ) / (T : ℚ) * 100 * 10 + (p : ℚ) / (T : ℚ) * 100 * 10 < 1000 := by
    have heq : (c : ℚ) / (T : ℚ) * 100 * 10 + (p : ℚ) / (T : ℚ) * 100 * 10
        = ((c : ℚ) + (p : ℚ)) * 1000 / (T : ℚ) := by ring
    rw [heq, div_lt_iff₀ hTq]
    nlinarith
  have hsum : rne ((c : ℚ) / (T : ℚ) * 100 * 10) + rne ((p : ℚ) / (T : ℚ) * 100 * 10)
      ≤ 1000 := by
    have hq : ((rne ((c : ℚ) / (T : ℚ) * 100 * 10)
        + rne ((p : ℚ) / (T : ℚ) * 100 * 10) : ℤ) : ℚ) < 1001 := by
      push_cast
      linarith
    have hz : rne ((c : ℚ) / (T : ℚ) * 100 * 10)
        + rne ((p : ℚ) / (T : ℚ) * 100 * 10) < 1001 := by exact_mod_cast hq
    omega
  unfold pyRound1
  have hfin : ((rne ((c : ℚ) / (T : ℚ) * 100 * 10) : ℚ)
      + (rne ((p : ℚ) / (T : ℚ) * 100 * 10) : ℚ)) ≤ 1000 := by exact_mod_cast hsum
  linarith

/-- C9 amended: in the `ratio_cp` field of `calculer_kpis_avances`,
`total_interventions` counts the completed interventions of every kind, while
the percentages `round(count / total * 100, 1)` are computed only for the
corrective and preventive kinds (each 0 when the total is 0); consequently
both percentages lie in [0, 100] and, whenever completed interventions of any
other kind exist, their sum is at most 100 (the counterexample shows the sum
can reach exactly 100, so the original "strictly less than 100" is amended to
"at most 100"). -/
theorem C9_ratio_cp_amende (s : Store) (annee : ℤ) :
    ((calculer_kpis_avances s annee).ratio_cp.total_interventions
        = s.interventions.length)
    ∧ (0 ≤ (calculer_kpis_avances s annee).ratio_cp.correctif_pct
        ∧ (calculer_kpis_avances s annee).ratio_cp.correctif_pct ≤ 100)
    ∧ (0 ≤ (calculer_kpis_avances s annee).ratio_cp.preventif_pct
        ∧ (calculer_kpis_avances s annee).ratio_cp.preventif_pct ≤ 100)
    ∧ ((∃ i ∈ s.interventions, i.type_intervention ≠ "corrective"
          ∧ i.type_intervention ≠ "preventive") →
        (calculer_kpis_avances s annee).ratio_cp.correctif_pct
          + (calculer_kpis_avances s annee).ratio_cp.preventif_pct ≤ 100) := by
  have hr : (calculer_kpis_avances s annee).ratio_cp
      = ratio_cp_of (get_frequence_interventions_par_type s.interventions) := rfl
  have htot : (((get_frequence_interventions_par_type s.interventions).map
      (fun f => f.nombre)).sum) = s.interventions.length := freq_total _
  have hcle : ratio_nombre (get_frequence_interventions_par_type s.interventions)
        "corrective"
      ≤ ((get_frequence_interventions_par_type s.interventions).map
        (fun f => f.nombre)).sum := by
    rw [htot]
    exact (ratio_kind_le s.interventions "corrective").trans (List.length_filter_le _ _)
  have hple : ratio_nombre (get_frequence_interventions_par_type s.interventions)
        "preventive"
      ≤ ((get_frequence_interventions_par_type s.interventions).map
        (fun f => f.nombre)).sum := by
    rw [htot]
    exact (ratio_kind_le s.interventions "preventive").trans (List.length_filter_le _ _)
  rw [hr]
  refine ⟨htot, ?_, ?_, ?_⟩
  · show 0 ≤ ratio_pct (get_frequence_interventions_par_type s.interventions) "corrective"
      ∧ ratio_pct (get_frequence_interventions_par_type s.interventions) "corrective" ≤ 100
    unfold ratio_pct
    exact pct_bound_aux _ _ hcle
  · show 0 ≤ ratio_pct (get_frequence_interventions_par_type s.interventions) "preventive"
      ∧ ratio_pct (get_frequence_interventions_par_type s.interventions) "preventive" ≤ 100
    unfold ratio_pct
    exact pct_bound_aux _ _ hple
  · rintro ⟨i0, hi0, hic, hip⟩
    have hTpos : 0 < ((get_frequence_interventions_par_type s.interventions).map
        (fun f => f.nombre)).sum := by
      rw [htot]
      exact List.length_pos.mpr (List.ne_nil_of_mem hi0)
    have hsplit := length_filter_split
      (fun i : Intervention => decide (i.type_intervention = "corrective")
        || decide (i.type_intervention = "preventive"))
      (fun i : Intervention => decide (i.type_intervention = "corrective"))
      s.interventions
    have hcongr1 : s.interventions.filter (fun i =>
        decide (i.type_intervention = "corrective")
          && (decide (i.type_intervention = "corrective")
            || decide (i.type_intervention = "preventive")))
        = s.interventions.filter (fun i => i.type_intervention = "corrective") :=
      List.filter_congr (fun i _ => by
        by_cases h : i.type_intervention = "corrective" <;> simp [h])
    have hcongr2 : s.interventions.filter (fun i =>
        !decide (i.type_intervention = "corrective")
          && (decide (i.type_intervention = "corrective")
            || decide (i.type_intervention = "preventive")))
        = s.interventions.filter (fun i => i.type_intervention = "preventive") :=
      List.filter_congr (fun i _ => by
        by_cases h : i.type_intervention = "corrective" <;>
          by_cases h2 : i.type_intervention = "preventive" <;> simp_all)
    have hlt : (s.interventions.filter (fun i =>
        decide (i.type_intervention = "corrective")
          || decide (i.type_intervention = "preventive"))).length
        < s.interventions.length := by
      refine lt_of_le_of_ne (List.length_filter_le _ _) ?_
      intro heq
      have := (List.filter_length_eq_length.mp heq) i0 hi0
      simp [hic, hip] at this
    have hcp : ratio_nombre (get_frequence_interventions_par_type s.interventions)
          "corrective"
        + ratio_nombre (get_frequence_interventions_par_type s.interventions)
          "preventive"
        + 1
        ≤ ((get_frequence_interventions_par_type s.interventions).map
          (fun f => f.nombre)).sum := by
      have hc := ratio_kind_le s.interventions "corrective"
      have hp := ratio_kind_le s.interventions "preventive"
      rw [hcongr1, hcongr2] at hsplit
      rw [htot]
      omega
    show ratio_pct (get_frequence_interventions_par_type s.interventions) "corrective"
        + ratio_pct (get_frequence_interventions_par_type s.interventions) "preventive"
      ≤ 100
    unfold ratio_pct
    rw [if_pos hTpos, if_pos hTpos]
    exact pct_sum_aux _ _ _ hcp
